import Mathlib

/-!
Shallow embedding of the keyword-based trend analyzer agent
(`src/upsonicai.py`): the SerpAPI adapter `SerpAPITool.search`, the result
normalization it performs, and the FastAPI handler `perform_search`.

JSON values carried by the provider payload are modelled by `JsonVal`;
a provider record (a Python dict) is an association list from string keys
to `JsonVal`.  Pydantic validation of the `SearchResult` fields (typed
`str` in the source) is modelled by `validateStr`.  The outbound network
call is made observable by counting calls in `SearchOutcome.networkCalls`.
-/

set_option autoImplicit false

/-- A JSON value as it can appear in a provider record field. -/
inductive JsonVal where
  | str (s : String)
  | num (n : Int)
  | bool (b : Bool)
  | null
  deriving DecidableEq, Repr

/-- A provider record: a mapping of string keys to JSON values
(Python dict, modelled as an association list; lookup finds the first
matching key, and well-formed dicts have unique keys). -/
def Record : Type := List (String × JsonVal)

instance : DecidableEq Record := by
  unfold Record; infer_instance

/-- `SearchResult` from the source: `title`, `link`, `snippet`, all `str`. -/
structure SearchResult where
  title : String
  link : String
  snippet : String
  deriving DecidableEq, Repr

/-- `SearchResponse` from the source: a list of results (the orchestrator's
declared response format). -/
structure SearchResponse where
  results : List SearchResult
  deriving DecidableEq, Repr

/-- The value returned by `perform_search` on success:
`{"keyword": input_data.keyword, "results": search_data.results}`. -/
structure HandlerResponse where
  keyword : String
  results : List SearchResult
  deriving DecidableEq, Repr

/-- Errors the embedded code can produce: an `HTTPException` with a status
code and detail string, or a pydantic validation error raised while
constructing a `SearchResult`. -/
inductive AppError where
  | http (statusCode : Nat) (detail : String)
  | validation (msg : String)
  deriving DecidableEq, Repr

/-- The provider's JSON payload: `data.get("organic", [])` means a missing
`organic` key (modelled by `none`) is read as the empty list. -/
structure ProviderPayload where
  organic : Option (List Record)
  deriving DecidableEq

/-- The provider's HTTP response: status code, raw body text (used in the
error message), and the parsed JSON payload (used on status 200). -/
structure ProviderResponse where
  statusCode : Nat
  text : String
  jsonBody : ProviderPayload
  deriving DecidableEq

/-- `result.get(key, default)` on a record: the stored value if the key is
present (whatever it is), otherwise the string default. -/
def fieldVal (r : Record) (key dflt : String) : JsonVal :=
  (List.lookup key r).getD (JsonVal.str dflt)

/-- Pydantic validation of a `str`-typed field (pydantic v2 does not coerce
non-string values to `str`): a string passes through, anything else raises. -/
def validateStr : JsonVal → Except String String
  | JsonVal.str s => Except.ok s
  | _ => Except.error "Input should be a valid string"

/-- Construction of one `SearchResult` from a provider record:
`SearchResult(title=result.get("title", "No Title"), link=result.get("link", "#"),
snippet=result.get("snippet", "No Description"))`, with pydantic validating
each field. -/
def normalizeRecord (r : Record) : Except String SearchResult :=
  match validateStr (fieldVal r "title" "No Title") with
  | Except.error e => Except.error e
  | Except.ok t =>
    match validateStr (fieldVal r "link" "#") with
    | Except.error e => Except.error e
    | Except.ok l =>
      match validateStr (fieldVal r "snippet" "No Description") with
      | Except.error e => Except.error e
      | Except.ok s => Except.ok ⟨t, l, s⟩

/-- The list comprehension `[SearchResult(...) for result in search_results[:10]]`
applied to an already-truncated list: left to right, aborting at the first
record whose construction raises. -/
def normalizeAll : List Record → Except String (List SearchResult)
  | [] => Except.ok []
  | r :: rs =>
    match normalizeRecord r with
    | Except.error e => Except.error e
    | Except.ok x =>
      match normalizeAll rs with
      | Except.error e => Except.error e
      | Except.ok xs => Except.ok (x :: xs)

/-- `search_results = data.get("organic", [])` followed by normalization of
`search_results[:10]`. -/
def extractResults (payload : ProviderPayload) : Except String (List SearchResult) :=
  normalizeAll ((payload.organic.getD []).take 10)

deriving instance DecidableEq for Except

/-- The outcome of one invocation of the adapter: the value returned or the
error raised, together with how many outbound network calls were made. -/
structure SearchOutcome where
  result : Except AppError (List SearchResult)
  networkCalls : Nat
  deriving DecidableEq

/-- `SerpAPITool.search` from the source.  The API key comes from the
environment (`none` = unset; the empty string is also falsy in Python's
`if not api_key`).  The provider's response to the single POST request is
passed as a parameter; when the key check fails the request is never made,
so `networkCalls = 0`. -/
def SerpAPITool.search (apiKey : Option String) (resp : ProviderResponse) :
    SearchOutcome :=
  match apiKey with
  | none => ⟨Except.error (AppError.http 500 "SerpAPI API Key not found!"), 0⟩
  | some k =>
    if k = "" then
      ⟨Except.error (AppError.http 500 "SerpAPI API Key not found!"), 0⟩
    else if resp.statusCode = 200 then
      match extractResults resp.jsonBody with
      | Except.ok l => ⟨Except.ok l, 1⟩
      | Except.error e => ⟨Except.error (AppError.validation e), 1⟩
    else
      ⟨Except.error
        (AppError.http 500 ("SerpAPI Request Failed: " ++ resp.text)), 1⟩

/-- The task description built by `perform_search`:
`f"Perform a web search for {input_data.keyword} and return the top results
with titles, links, and snippets."` -/
def taskDescription (keyword : String) : String :=
  "Perform a web search for " ++ keyword ++
    " and return the top results with titles, links, and snippets."

/-- `perform_search` from the source.  The agent orchestrator is an external
collaborator, modelled as a function from the task description to the
(possibly absent) `SearchResponse` it leaves in `search_task.response`.
`if not search_data: raise HTTPException(500, ...)`; otherwise the handler
returns the original keyword together with the orchestrator's results. -/
def perform_search (keyword : String)
    (orchestrator : String → Option SearchResponse) :
    Except AppError HandlerResponse :=
  match orchestrator (taskDescription keyword) with
  | none => Except.error (AppError.http 500 "Failed to fetch search results.")
  | some searchData => Except.ok ⟨keyword, searchData.results⟩

/-- `true` iff the JSON value is a string. -/
def JsonVal.isStr : JsonVal → Bool
  | JsonVal.str _ => true
  | _ => false

/-- A record whose three relevant fields, where present, are strings
(absent fields read back as the string default, hence also pass). -/
def recordStrOK (r : Record) : Bool :=
  (fieldVal r "title" "No Title").isStr &&
    (fieldVal r "link" "#").isStr &&
    (fieldVal r "snippet" "No Description").isStr

/-- `true` iff normalization succeeded. -/
def isOkResults : Except String (List SearchResult) → Bool
  | Except.ok _ => true
  | Except.error _ => false

theorem validateStr_isStr {v : JsonVal} (h : v.isStr = true) :
    ∃ s, validateStr v = Except.ok s := by
  cases v with
  | str s => exact ⟨s, rfl⟩
  | num n => simp [JsonVal.isStr] at h
  | bool b => simp [JsonVal.isStr] at h
  | null => simp [JsonVal.isStr] at h

theorem normalizeRecord_ok {r : Record} (h : recordStrOK r = true) :
    ∃ x, normalizeRecord r = Except.ok x := by
  unfold recordStrOK at h
  simp only [Bool.and_eq_true] at h
  obtain ⟨⟨ht, hl⟩, hs⟩ := h
  obtain ⟨t, ht'⟩ := validateStr_isStr ht
  obtain ⟨l, hl'⟩ := validateStr_isStr hl
  obtain ⟨s, hs'⟩ := validateStr_isStr hs
  exact ⟨⟨t, l, s⟩, by rw [normalizeRecord, ht', hl', hs']⟩

theorem normalizeAll_length :
    ∀ (rs : List Record) (l : List SearchResult),
      normalizeAll rs = Except.ok l → l.length = rs.length := by
  intro rs
  induction rs with
  | nil =>
    intro l h
    simp only [normalizeAll] at h
    cases h
    rfl
  | cons r rs ih =>
    intro l h
    simp only [normalizeAll] at h
    cases hx : normalizeRecord r with
    | error e => rw [hx] at h; cases h
    | ok x =>
      rw [hx] at h
      cases hxs : normalizeAll rs with
      | error e => rw [hxs] at h; cases h
      | ok xs =>
        rw [hxs] at h
        cases h
        simp [List.length_cons, ih xs hxs]

/-! ## Claim theorems -/

/-- Claim C1: with the key configured and an HTTP 200 payload whose organic
list is `rs`, the adapter returns exactly the normalization of the first 10
entries of `rs`, in order, and the result list has length `min rs.length 10`. -/
theorem c1_search_truncates_to_ten (k : String) (hk : ¬ k = "")
    (resp : ProviderResponse) (rs : List Record)
    (h200 : resp.statusCode = 200)
    (horg : resp.jsonBody.organic = some rs)
    (l : List SearchResult)
    (hok : normalizeAll (rs.take 10) = Except.ok l) :
    (SerpAPITool.search (some k) resp).result = Except.ok l ∧
      l.length = min rs.length 10 := by
  have hex : extractResults resp.jsonBody = Except.ok l := by
    rw [extractResults, horg]; exact hok
  constructor
  · simp only [SerpAPITool.search, if_neg hk, if_pos h200, hex]
  · have hlen := normalizeAll_length (rs.take 10) l hok
    rw [List.length_take] at hlen
    rw [hlen, Nat.min_comm]

/-- Twelve provider records with distinct titles, for the C1 witness. -/
def c1Records : List Record :=
  [[("title", JsonVal.str "r01")], [("title", JsonVal.str "r02")],
   [("title", JsonVal.str "r03")], [("title", JsonVal.str "r04")],
   [("title", JsonVal.str "r05")], [("title", JsonVal.str "r06")],
   [("title", JsonVal.str "r07")], [("title", JsonVal.str "r08")],
   [("title", JsonVal.str "r09")], [("title", JsonVal.str "r10")],
   [("title", JsonVal.str "r11")], [("title", JsonVal.str "r12")]]

/-- The normalization of the first ten of `c1Records`, in order. -/
def c1Expected : List SearchResult :=
  [⟨"r01", "#", "No Description"⟩, ⟨"r02", "#", "No Description"⟩,
   ⟨"r03", "#", "No Description"⟩, ⟨"r04", "#", "No Description"⟩,
   ⟨"r05", "#", "No Description"⟩, ⟨"r06", "#", "No Description"⟩,
   ⟨"r07", "#", "No Description"⟩, ⟨"r08", "#", "No Description"⟩,
   ⟨"r09", "#", "No Description"⟩, ⟨"r10", "#", "No Description"⟩]

/-- Claim C1 witness: a payload with 12 organic results yields exactly the
first 10, in order. -/
theorem c1_witness :
    (SerpAPITool.search (some "key") ⟨200, "", ⟨some c1Records⟩⟩).result =
        Except.ok c1Expected ∧
      c1Expected.length = min c1Records.length 10 :=
  c1_search_truncates_to_ten "key" (by decide) ⟨200, "", ⟨some c1Records⟩⟩
    c1Records rfl rfl c1Expected (by decide)

/-- Claim C2 counterexample: a record whose `title` key is present with the
empty string as value normalizes to an empty title, not to the documented
placeholder "No Title" — `dict.get` substitutes only on absence. -/
theorem c2_empty_value_not_replaced :
    normalizeRecord [("title", JsonVal.str "")] =
        Except.ok ⟨"", "#", "No Description"⟩ ∧
      ("" : String) ≠ "No Title" := by
  decide

/-- A record holding exactly the given optional string fields. -/
def optRecord (t l s : Option String) : Record :=
  (match t with
   | some x => [("title", JsonVal.str x)]
   | none => []) ++
  (match l with
   | some x => [("link", JsonVal.str x)]
   | none => []) ++
  (match s with
   | some x => [("snippet", JsonVal.str x)]
   | none => [])

/-- Claim C2 (amended): each output field equals the documented placeholder
exactly when the corresponding key is absent, and equals the record's value
verbatim (even the empty string) when the key is present with a string value;
no missing-field error is raised. -/
theorem c2_defaults_on_absence_only (t l s : Option String) :
    normalizeRecord (optRecord t l s) =
      Except.ok ⟨t.getD "No Title", l.getD "#", s.getD "No Description"⟩ := by
  cases t <;> cases l <;> cases s <;> rfl

/-- Claim C3: whenever `perform_search` completes successfully, the response's
`keyword` field equals the caller's original input keyword verbatim. -/
theorem c3_keyword_echoed (kw : String)
    (orc : String → Option SearchResponse) (r : HandlerResponse)
    (h : perform_search kw orc = Except.ok r) : r.keyword = kw := by
  unfold perform_search at h
  cases horc : orc (taskDescription kw) with
  | none => rw [horc] at h; cases h
  | some sd => rw [horc] at h; cases h; rfl

/-- An orchestrator that always produces an empty result list. -/
def c3Orc : String → Option SearchResponse := fun _ => some ⟨[]⟩

/-- Claim C3 witness: keyword "rust vs go" echoes back exactly. -/
theorem c3_witness :
    perform_search "rust vs go" c3Orc = Except.ok ⟨"rust vs go", []⟩ ∧
      (⟨"rust vs go", []⟩ : HandlerResponse).keyword = "rust vs go" :=
  ⟨rfl, c3_keyword_echoed "rust vs go" c3Orc ⟨"rust vs go", []⟩ rfl⟩

/-- Does `pat` occur as a contiguous run of characters? -/
def subOccurs (pat : List Char) : List Char → Bool
  | [] => pat.isEmpty
  | c :: rest => pat.isPrefixOf (c :: rest) || subOccurs pat rest

/-- Does the string `s` mention `t` as a substring? -/
def strMentions (s t : String) : Bool := subOccurs t.data s.data

/-- The provider response used as the C4 counterexample: status 404. -/
def c4Resp : ProviderResponse := ⟨404, "upstream body", ⟨none⟩⟩

/-- Claim C4 counterexample: on a provider 404, the raised error has the fixed
status 500 (not the provider's 404) and its detail carries only the body text —
the provider's status appears nowhere in the error. -/
theorem c4_status_not_carried :
    (SerpAPITool.search (some "key2") c4Resp).result =
        Except.error (AppError.http 500 "SerpAPI Request Failed: upstream body") ∧
      strMentions "SerpAPI Request Failed: upstream body" "404" = false ∧
      (500 : Nat) ≠ 404 := by
  decide

/-- Claim C4 (amended): on any non-200 provider response with the key
configured, the adapter fails with an HTTP 500 error whose detail carries the
provider's body text (but not the provider's status), and no result list is
returned. -/
theorem c4_non200_fails (k : String) (hk : ¬ k = "")
    (resp : ProviderResponse) (hs : ¬ resp.statusCode = 200) :
    (SerpAPITool.search (some k) resp).result =
      Except.error
        (AppError.http 500 ("SerpAPI Request Failed: " ++ resp.text)) := by
  simp only [SerpAPITool.search, if_neg hk, if_neg hs]

/-- Claim C4 witness: a concrete 503 with body "oops" fails upstream. -/
theorem c4_witness :
    (SerpAPITool.search (some "key3") ⟨503, "oops", ⟨none⟩⟩).result =
      Except.error (AppError.http 500 ("SerpAPI Request Failed: " ++ "oops")) :=
  c4_non200_fails "key3" (by decide) ⟨503, "oops", ⟨none⟩⟩ (by decide)

/-- Claim C5: with the API key absent, the adapter fails with the
configuration error and makes zero outbound network calls — the failure
happens strictly before any request to the provider. -/
theorem c5_missing_key_before_network (resp : ProviderResponse) :
    (SerpAPITool.search none resp).result =
        Except.error (AppError.http 500 "SerpAPI API Key not found!") ∧
      (SerpAPITool.search none resp).networkCalls = 0 :=
  ⟨rfl, rfl⟩

/-- Claim C6: an HTTP 200 payload whose organic key is missing, or maps to the
empty list, yields the empty result list and no error. -/
theorem c6_empty_organic_ok (k : String) (hk : ¬ k = "")
    (resp : ProviderResponse) (h200 : resp.statusCode = 200)
    (horg : resp.jsonBody.organic = none ∨ resp.jsonBody.organic = some []) :
    (SerpAPITool.search (some k) resp).result = Except.ok [] := by
  have hex : extractResults resp.jsonBody = Except.ok [] := by
    rcases horg with h | h <;> rw [extractResults, h] <;> rfl
  simp only [SerpAPITool.search, if_neg hk, if_pos h200, hex]

/-- Claim C6 witness: a 200 response with no organic key gives `ok []`. -/
theorem c6_witness :
    (SerpAPITool.search (some "key4") ⟨200, "", ⟨none⟩⟩).result =
      Except.ok [] :=
  c6_empty_organic_ok "key4" (by decide) ⟨200, "", ⟨none⟩⟩ rfl (Or.inl rfl)

/-- Claim C7: when the orchestrator yields no response, the handler fails with
the HTTP 500 error carrying the generic message, and returns no response. -/
theorem c7_no_response_fails (kw : String)
    (orc : String → Option SearchResponse)
    (h : orc (taskDescription kw) = none) :
    perform_search kw orc =
      Except.error (AppError.http 500 "Failed to fetch search results.") := by
  unfold perform_search
  rw [h]

/-- An orchestrator that yields no response, for the C7 witness. -/
def c7Orc : String → Option SearchResponse := fun _ => none

/-- Claim C7 witness: the null-response orchestrator triggers the 500. -/
theorem c7_witness :
    perform_search "anything" c7Orc =
      Except.error (AppError.http 500 "Failed to fetch search results.") :=
  c7_no_response_fails "anything" c7Orc rfl

/-- An orchestrator that answers every task with an empty result list. -/
def c8Orc : String → Option SearchResponse := fun _ => some ⟨[]⟩

/-- Claim C8 counterexample: a request with the empty keyword is not rejected —
the handler forwards it and completes successfully, echoing the empty
keyword. -/
theorem c8_empty_keyword_not_rejected :
    perform_search "" c8Orc = Except.ok ⟨"", []⟩ := rfl

/-- Claim C8 (amended): the handler performs no keyword validation; an empty
keyword is embedded in the task description and forwarded to the orchestrator
like any other, and the request succeeds whenever the orchestrator answers. -/
theorem c8_no_keyword_validation (orc : String → Option SearchResponse)
    (sd : SearchResponse) (h : orc (taskDescription "") = some sd) :
    perform_search "" orc = Except.ok ⟨"", sd.results⟩ := by
  unfold perform_search
  rw [h]

/-- An orchestrator answering with one nonempty result, for the C8 witness. -/
def c8OrcFull : String → Option SearchResponse :=
  fun _ => some ⟨[⟨"t", "l", "s"⟩]⟩

/-- Claim C8 witness: the empty keyword flows through to a success. -/
theorem c8_witness :
    perform_search "" c8OrcFull = Except.ok ⟨"", [⟨"t", "l", "s"⟩]⟩ :=
  c8_no_keyword_validation c8OrcFull ⟨[⟨"t", "l", "s"⟩]⟩ rfl

/-- Claim C9: normalization is total over well-formed records whose present
fields are strings — for every such sequence, in every combination of present
and absent fields, mapping into SearchResult values succeeds. -/
theorem c9_normalization_total (rs : List Record)
    (h : ∀ r ∈ rs, recordStrOK r = true) :
    isOkResults (normalizeAll rs) = true := by
  induction rs with
  | nil => rfl
  | cons r rs ih =>
    have hr := h r (List.mem_cons_self r rs)
    obtain ⟨x, hx⟩ := normalizeRecord_ok hr
    have hrest := ih (fun r' hr' => h r' (List.mem_cons_of_mem r hr'))
    simp only [normalizeAll, hx]
    cases hxs : normalizeAll rs with
    | error e => rw [hxs] at hrest; simp [isOkResults] at hrest
    | ok xs => rfl

/-- Records exercising every combination of present and absent fields
(including a present-but-empty value), for the C9 witness. -/
def c9Sample : List Record :=
  [[],
   [("title", JsonVal.str "")],
   [("link", JsonVal.str "only-link")],
   [("snippet", JsonVal.str "only-snippet")],
   [("title", JsonVal.str "a"), ("link", JsonVal.str "b")],
   [("title", JsonVal.str "a"), ("snippet", JsonVal.str "c")],
   [("link", JsonVal.str "b"), ("snippet", JsonVal.str "c")],
   [("title", JsonVal.str "a"), ("link", JsonVal.str "b"),
    ("snippet", JsonVal.str "c")]]

/-- Claim C9 witness: the sample sequence normalizes without error. -/
theorem c9_witness : isOkResults (normalizeAll c9Sample) = true :=
  c9_normalization_total c9Sample (by decide)

/-- Claim C10: a record whose `title` key holds a number is not replaced by the
placeholder; constructing the SearchResult fails with a validation error,
aborting the whole adapter invocation. -/
theorem c10_nonstring_field_fails :
    (SerpAPITool.search (some "key5")
          ⟨200, "", ⟨some [[("title", JsonVal.num 5)]]⟩⟩).result =
        Except.error (AppError.validation "Input should be a valid string") ∧
      normalizeRecord [("title", JsonVal.num 5)] =
        Except.error "Input should be a valid string" := by
  decide
